import Mathlib

/-!
Verification of the business-management-system sale-transaction and stock-ledger
subsystem, shallowly embedded from the request handlers in
`api/sales.js`, `api/products.js`, `api/customers.js` and the relational schema
created by `api/init-db.js`.

Modelling conventions:

* Monetary amounts are modelled as integer numbers of cents (`Int`).  Every
  monetary column of the schema is a `DECIMAL(p,2)` Postgres column, which
  stores an exact multiple of one cent; request amounts written by clients are
  two-decimal currency values.  The one place the handlers produce a value that
  need not be a whole number of cents is the commission computation
  `(total_amount * commission_rate) / 100`; there the `DECIMAL(10,2)` column
  `sales.commission_amount` rounds the inserted value to the nearest cent
  (Postgres `numeric` rounds ties away from zero), modelled by
  `roundHalfAwayDiv100`.
* Missing JSON fields are modelled with `Option`; JavaScript truthiness checks
  (`!item.quantity`, `customer_id || null`, …) are modelled by `truthyInt` /
  `truthyNat`, which are false exactly on a missing field and on `0`.
* A database transaction that throws at any step rolls back every prior write
  (`BEGIN` … `ROLLBACK` in the source), so a failing handler returns the
  unchanged database state paired with the error response produced by the
  module-level catch handler, which answers 401 if the error message contains
  one of the substrings `token` / `Invalid` / `inactive` and otherwise answers
  500 `Server error`.
* Failures inside the transaction (the per-item field validation, a duplicate
  `sale_number` hitting the unique index, a foreign-key violation on an
  inserted reference) are all observationally equivalent to checking the
  failure condition up front and returning the rolled-back state, which is how
  the model sequences them.
* The serially assigned primary key of a new sale is modelled by the counter
  `nextSaleId`.  Columns that no claim mentions (names, descriptions, SKUs,
  prices on products, payment fields, timestamps, the `price_history` table,
  whose foreign key on products is `ON DELETE CASCADE` and therefore never
  blocks a deletion) are omitted from the record types.
-/

/-- Characterwise prefix test used by the substring check below. -/
def isPrefixOfChars : List Char → List Char → Bool
  | [], _ => true
  | _ :: _, [] => false
  | a :: as, b :: bs => a == b && isPrefixOfChars as bs

/-- Substring occurrence test on character lists. -/
def containsChars (pat : List Char) : List Char → Bool
  | [] => isPrefixOfChars pat []
  | c :: rest => isPrefixOfChars pat (c :: rest) || containsChars pat rest

/-- Model of JavaScript `s.includes(pat)`. -/
def strContains (s pat : String) : Bool := containsChars pat.data s.data

/-- Model of JavaScript `String.prototype.padStart(3, '0')`. -/
def padThree (s : String) : String :=
  if s.length = 0 then "000"
  else if s.length = 1 then "00" ++ s
  else if s.length = 2 then "0" ++ s
  else s

/-- Model of JavaScript `s.slice(-n)`: the last `n` characters of `s`. -/
def lastChars (n : Nat) (s : String) : String :=
  String.mk (s.data.drop (s.data.length - n))

/-- Embeds `generateSaleNumber` from `api/sales.js`: a `SALE-` prefixed token
built from the last six digits of the millisecond timestamp and a
three-digit random suffix (`Math.floor(Math.random() * 1000)`). -/
def generateSaleNumber (timestamp rand : Nat) : String :=
  "SALE-" ++ lastChars 6 (toString timestamp) ++ padThree (toString (rand % 1000))

/-- User roles seeded by `init-db.js` and compared against by the handlers
(`user.role === 'sales_rep'`, `user.role !== 'admin'`). -/
inductive Role where
  | admin
  | sales_rep
deriving Repr, DecidableEq

/-- The acting identity resolved by the authentication middleware. -/
structure User where
  id : Nat
  role : Role
deriving Repr, DecidableEq

/-- Row of the `products` table (the columns the claims are about). -/
structure Product where
  id : Nat
  stock_quantity : Int
deriving Repr, DecidableEq

/-- Row of the `customers` table; `total_purchases` is a `DECIMAL(15,2)`
accumulator, in cents. -/
structure Customer where
  id : Nat
  total_purchases : Int
deriving Repr, DecidableEq

/-- Row of the `sales` table.  All monetary amounts are in cents;
`commission_rate` is the integer percentage stored in `DECIMAL(5,2)`. -/
structure Sale where
  id : Nat
  sale_number : String
  customer_id : Option Nat
  sales_rep_id : Nat
  subtotal : Int
  discount_amount : Int
  tax_amount : Int
  total_amount : Int
  commission_amount : Int
  commission_rate : Int
deriving Repr, DecidableEq

/-- Row of the `sale_items` table. -/
structure SaleItem where
  sale_id : Nat
  product_id : Nat
  quantity : Int
  unit_price : Int
  total_price : Int
deriving Repr, DecidableEq

/-- The `movement_type` column: `'in'` or `'out'`. -/
inductive MovementType where
  | stockIn
  | stockOut
deriving Repr, DecidableEq

/-- Row of the `stock_movements` table.  `reference_id` is a plain integer
column (no foreign key); the deletion handler inserts SQL `NULL` there
because it reads `sale.id` off the query-result object, which is undefined. -/
structure StockMovement where
  product_id : Nat
  movement_type : MovementType
  quantity : Int
  reference_type : String
  reference_id : Option Nat
  created_by : Nat
deriving Repr, DecidableEq

/-- The relational state the sale/product/customer handlers read and write. -/
structure DB where
  products : List Product
  customers : List Customer
  sales : List Sale
  sale_items : List SaleItem
  stock_movements : List StockMovement
  nextSaleId : Nat
deriving Repr, DecidableEq

/-- JavaScript truthiness of an optional integer field: `undefined` and `0`
are falsy. -/
def truthyInt : Option Int → Bool
  | none => false
  | some i => i != 0

/-- JavaScript truthiness of an optional id field. -/
def truthyNat : Option Nat → Bool
  | none => false
  | some n => n != 0

/-- Numeric value of an optional field once validation has established it is
present (the handlers only read these after the truthiness checks pass). -/
def jsNum (o : Option Int) : Int := o.getD 0

/-- Id value of an optional reference field, as above. -/
def jsId (o : Option Nat) : Nat := o.getD 0

/-- A line item of the request body, `{ product_id, quantity, unit_price }`,
with every field optional as in raw JSON. -/
structure RawItem where
  product_id : Option Nat
  quantity : Option Int
  unit_price : Option Int
deriving Repr, DecidableEq

/-- The create-sale request body of `POST /api/sales`. -/
structure CreateSaleRequest where
  customer_id : Option Nat
  items : List RawItem
  discount_amount : Int
  tax_amount : Int
deriving Repr, DecidableEq

/-- Embeds the per-item validation
`if (!item.product_id || !item.quantity || !item.unit_price) throw ...`. -/
def itemValid (it : RawItem) : Bool :=
  truthyNat it.product_id && truthyInt it.quantity && truthyInt it.unit_price

/-- Line total `item.quantity * item.unit_price` (cents). -/
def lineTotal (it : RawItem) : Int := jsNum it.quantity * jsNum it.unit_price

/-- Subtotal accumulation `subtotal += item.quantity * item.unit_price`. -/
def computeSubtotal (items : List RawItem) : Int := (items.map lineTotal).sum

/-- Rounds `n / 100` to the nearest integer with ties away from zero: the
coercion a Postgres `DECIMAL(10,2)` column applies to the inserted
commission value (`n` is `total_amount * commission_rate` in cents·percent). -/
def roundHalfAwayDiv100 (n : Int) : Int :=
  if 0 ≤ n then (((n.toNat + 50) / 100 : Nat) : Int)
  else -((((-n).toNat + 50) / 100 : Nat) : Int)

/-- Value actually stored in `sales.customer_id`: the handler passes
`customer_id || null`, so a falsy reference is stored as SQL `NULL`. -/
def storedCustomerId (o : Option Nat) : Option Nat :=
  if truthyNat o then o else none

/-- Row-existence test backing the foreign-key constraint on product ids. -/
def productExists (ps : List Product) (pid : Nat) : Bool :=
  ps.any (fun p => p.id == pid)

/-- Row-existence test backing the foreign-key constraint on customer ids. -/
def customerExists (cs : List Customer) (cid : Nat) : Bool :=
  cs.any (fun c => c.id == cid)

/-- True when the transaction would hit a foreign-key violation: the stored
(non-null) `customer_id` must exist in `customers`, and every
`sale_items.product_id` must exist in `products`. -/
def fkViolationCreate (db : DB) (req : CreateSaleRequest) : Bool :=
  (match storedCustomerId req.customer_id with
   | some cid => !(customerExists db.customers cid)
   | none => false)
  || req.items.any (fun it => !(productExists db.products (jsId it.product_id)))

/-- Result of `handleCreateSale`: HTTP 201 with the persisted sale, or an
error status and message. -/
inductive CreateResult where
  | ok (sale : Sale)
  | err (status : Nat) (message : String)
deriving Repr, DecidableEq

/-- HTTP status of a create result (`res.status(201)` on success). -/
def CreateResult.status : CreateResult → Nat
  | .ok _ => 201
  | .err s _ => s

/-- Result of the other handlers: HTTP 200 with a message, or an error. -/
inductive ApiResult where
  | ok (message : String)
  | err (status : Nat) (message : String)
deriving Repr, DecidableEq

/-- HTTP status of an `ApiResult` (`res.json(...)` answers 200). -/
def ApiResult.status : ApiResult → Nat
  | .ok _ => 200
  | .err s _ => s

/-- Message thrown by the per-item validation in `handleCreateSale`. -/
def itemFieldsMsg : String := "Each item must have product_id, quantity, and unit_price"

/-- Postgres error message prefix for a unique-index violation. -/
def pgDuplicateKeyMsg : String := "duplicate key value violates unique constraint"

/-- Postgres error message prefix for a foreign-key violation. -/
def pgForeignKeyMsg : String := "insert or update on table violates foreign key constraint"

/-- The module-level catch handler's status choice: 401 when the message
contains `token`, `Invalid` or `inactive`, else 500. -/
def catchStatus (msg : String) : Nat :=
  if strContains msg "token" || strContains msg "Invalid" || strContains msg "inactive"
  then 401 else 500

/-- Response produced when a thrown error reaches the module-level catch
handler (the 500 branch answers the constant body `Server error`). -/
def catchResultC (msg : String) : CreateResult :=
  if catchStatus msg = 401 then CreateResult.err 401 msg
  else CreateResult.err 500 "Server error"

/-- Same catch handler for the handlers that return an `ApiResult`. -/
def catchResultA (msg : String) : ApiResult :=
  if catchStatus msg = 401 then ApiResult.err 401 msg
  else ApiResult.err 500 "Server error"

/-- The `sale_items` row inserted for one request line. -/
def mkSaleItem (saleId : Nat) (it : RawItem) : SaleItem :=
  { sale_id := saleId
    product_id := jsId it.product_id
    quantity := jsNum it.quantity
    unit_price := jsNum it.unit_price
    total_price := lineTotal it }

/-- The `stock_movements` row inserted for one request line
(`movement_type = 'out'`, `reference_type = 'sale'`, `reference_id = sale.id`). -/
def mkOutMovement (saleId userId : Nat) (it : RawItem) : StockMovement :=
  { product_id := jsId it.product_id
    movement_type := MovementType.stockOut
    quantity := jsNum it.quantity
    reference_type := "sale"
    reference_id := some saleId
    created_by := userId }

/-- Embeds `UPDATE products SET stock_quantity = stock_quantity - $1 WHERE id = $2`. -/
def stockMinus (ps : List Product) (pid : Nat) (q : Int) : List Product :=
  ps.map fun p =>
    if p.id == pid then { p with stock_quantity := p.stock_quantity - q } else p

/-- Embeds `UPDATE products SET stock_quantity = stock_quantity + $1 WHERE id = $2`. -/
def stockPlus (ps : List Product) (pid : Nat) (q : Int) : List Product :=
  ps.map fun p =>
    if p.id == pid then { p with stock_quantity := p.stock_quantity + q } else p

/-- Embeds `UPDATE customers SET total_purchases = total_purchases + $1 WHERE id = $2`. -/
def purchasesPlus (cs : List Customer) (cid : Nat) (amt : Int) : List Customer :=
  cs.map fun c =>
    if c.id == cid then { c with total_purchases := c.total_purchases + amt } else c

/-- Embeds `UPDATE customers SET total_purchases = total_purchases - $1 WHERE id = $2`. -/
def purchasesMinus (cs : List Customer) (cid : Nat) (amt : Int) : List Customer :=
  cs.map fun c =>
    if c.id == cid then { c with total_purchases := c.total_purchases - amt } else c

/-- One iteration of the create-sale item loop: insert the `sale_items` row,
decrement the product's stock, append the `'out'` stock movement. -/
def createSaleStep (saleId userId : Nat) (db : DB) (it : RawItem) : DB :=
  { db with
    sale_items := db.sale_items ++ [mkSaleItem saleId it]
    products := stockMinus db.products (jsId it.product_id) (jsNum it.quantity)
    stock_movements := db.stock_movements ++ [mkOutMovement saleId userId it] }

/-- Embeds `handleCreateSale` from `api/sales.js`.  `gen` is the sale number
produced by the single call to `generateSaleNumber()` (an oracle input, since
it depends on the clock and `Math.random`).  Every throwing path inside the
transaction (`ROLLBACK`) returns the unchanged database. -/
def handleCreateSale (db : DB) (u : User) (req : CreateSaleRequest) (gen : String) :
    CreateResult × DB :=
  if req.items.isEmpty then
    (CreateResult.err 400 "Sale items are required", db)
  else if (req.items.all itemValid) = false then
    (catchResultC itemFieldsMsg, db)
  else
    let subtotal := computeSubtotal req.items
    let total_amount := subtotal - req.discount_amount + req.tax_amount
    let commission_rate : Int := if u.role = Role.sales_rep then 5 else 0
    let commission_amount := roundHalfAwayDiv100 (total_amount * commission_rate)
    if db.sales.any (fun s => s.sale_number == gen) then
      (catchResultC pgDuplicateKeyMsg, db)
    else if fkViolationCreate db req then
      (catchResultC pgForeignKeyMsg, db)
    else
      let sale : Sale :=
        { id := db.nextSaleId
          sale_number := gen
          customer_id := storedCustomerId req.customer_id
          sales_rep_id := u.id
          subtotal := subtotal
          discount_amount := req.discount_amount
          tax_amount := req.tax_amount
          total_amount := total_amount
          commission_amount := commission_amount
          commission_rate := commission_rate }
      let db1 : DB := { db with sales := db.sales ++ [sale], nextSaleId := db.nextSaleId + 1 }
      let db2 : DB := req.items.foldl (createSaleStep sale.id u.id) db1
      let db3 : DB :=
        if truthyNat req.customer_id then
          { db2 with customers := purchasesPlus db2.customers (jsId req.customer_id) total_amount }
        else db2
      (CreateResult.ok sale, db3)

/-- The compensating `stock_movements` row inserted for one sale item on
deletion (`movement_type = 'in'`, `reference_type = 'sale_delete'`;
`reference_id` is `NULL` because the source reads `sale.id` off the
query-result object rather than the row). -/
def mkInMovement (userId : Nat) (si : SaleItem) : StockMovement :=
  { product_id := si.product_id
    movement_type := MovementType.stockIn
    quantity := si.quantity
    reference_type := "sale_delete"
    reference_id := none
    created_by := userId }

/-- One iteration of the delete-sale item loop: restore the product's stock
and append the compensating `'in'` stock movement. -/
def deleteSaleStep (userId : Nat) (db : DB) (si : SaleItem) : DB :=
  { db with
    products := stockPlus db.products si.product_id si.quantity
    stock_movements := db.stock_movements ++ [mkInMovement userId si] }

/-- Embeds `handleDeleteSale` from `api/sales.js`: admin-only, 404 when the
sale is absent; otherwise restores stock per item, logs compensating
movements, reverses the customer's `total_purchases` when the sale has a
truthy `customer_id`, and deletes the sale (cascading its `sale_items`). -/
def handleDeleteSale (db : DB) (u : User) (idq : Option Nat) : ApiResult × DB :=
  match idq with
  | none => (ApiResult.err 400 "Sale ID is required", db)
  | some id =>
    if u.role ≠ Role.admin then
      (ApiResult.err 403 "Only admins can delete sales", db)
    else
      match db.sales.find? (fun s => s.id == id) with
      | none => (ApiResult.err 404 "Sale not found", db)
      | some sale =>
        let items := db.sale_items.filter (fun si => si.sale_id == id)
        let db1 : DB := items.foldl (deleteSaleStep u.id) db
        let db2 : DB :=
          if truthyNat sale.customer_id then
            { db1 with customers :=
                purchasesMinus db1.customers (jsId sale.customer_id) sale.total_amount }
          else db1
        let db3 : DB :=
          { db2 with
            sales := db2.sales.filter (fun s => s.id != id)
            sale_items := db2.sale_items.filter (fun si => si.sale_id != id) }
        (ApiResult.ok "Sale deleted successfully", db3)

/-- Embeds `handleDeleteProduct` from `api/products.js`.  After the handler's
own `sale_items` reference check, the final `DELETE FROM products` is still
subject to the schema's foreign key `stock_movements.product_id REFERENCES
products(id)` (no `ON DELETE` action, `init-db.js`), so it throws — reaching
the module-level catch as a 500 — whenever any stock movement references the
product. -/
def handleDeleteProduct (db : DB) (idq : Option Nat) : ApiResult × DB :=
  match idq with
  | none => (ApiResult.err 400 "Product ID is required", db)
  | some id =>
    if (db.products.any (fun p => p.id == id)) = false then
      (ApiResult.err 404 "Product not found", db)
    else if db.sale_items.any (fun si => si.product_id == id) then
      (ApiResult.err 400 "Cannot delete product that has been used in sales", db)
    else if db.stock_movements.any (fun m => m.product_id == id) then
      (catchResultA pgForeignKeyMsg, db)
    else
      (ApiResult.ok "Product deleted successfully",
        { db with products := db.products.filter (fun p => p.id != id) })

/-- Embeds `handleDeleteCustomer` from `api/customers.js`: 404 when absent,
blocked when any sale references the customer, plain delete otherwise
(no other table holds a foreign key into `customers`). -/
def handleDeleteCustomer (db : DB) (idq : Option Nat) : ApiResult × DB :=
  match idq with
  | none => (ApiResult.err 400 "Customer ID is required", db)
  | some id =>
    if (db.customers.any (fun c => c.id == id)) = false then
      (ApiResult.err 404 "Customer not found", db)
    else if db.sales.any (fun s => s.customer_id == some id) then
      (ApiResult.err 400 "Cannot delete customer that has sales history", db)
    else
      (ApiResult.ok "Customer deleted successfully",
        { db with customers := db.customers.filter (fun c => c.id != id) })

/-- Stock quantity of product `pid`, when the product exists. -/
def stockOf (ps : List Product) (pid : Nat) : Option Int :=
  (ps.find? (fun p => p.id == pid)).map Product.stock_quantity

/-- Lifetime total purchases of customer `cid`, when the customer exists. -/
def totalOf (cs : List Customer) (cid : Nat) : Option Int :=
  (cs.find? (fun c => c.id == cid)).map Customer.total_purchases

/-- Total quantity the request's lines order for product `pid`. -/
def sumQtyRaw : List RawItem → Nat → Int
  | [], _ => 0
  | it :: rest, pid =>
    (if jsId it.product_id = pid then jsNum it.quantity else 0) + sumQtyRaw rest pid

/-- Total quantity a list of sale items holds for product `pid`. -/
def sumQtySI : List SaleItem → Nat → Int
  | [], _ => 0
  | si :: rest, pid =>
    (if si.product_id = pid then si.quantity else 0) + sumQtySI rest pid

/-- Stock mutation in one direction is the other direction with a negated
quantity. -/
theorem stockPlus_eq_stockMinus (ps : List Product) (pid : Nat) (q : Int) :
    stockPlus ps pid q = stockMinus ps pid (-q) := by
  simp [stockPlus, stockMinus, sub_neg_eq_add]

/-- Customer mutation in one direction is the other with a negated amount. -/
theorem purchasesMinus_eq_purchasesPlus (cs : List Customer) (cid : Nat) (amt : Int) :
    purchasesMinus cs cid amt = purchasesPlus cs cid (-amt) := by
  simp [purchasesMinus, purchasesPlus, sub_eq_add_neg]

/-- Unfolding `stockOf` over a cons cell. -/
theorem stockOf_cons (p : Product) (ps : List Product) (pid : Nat) :
    stockOf (p :: ps) pid =
      if p.id = pid then some p.stock_quantity else stockOf ps pid := by
  by_cases h : p.id = pid <;> simp [stockOf, List.find?_cons, h]

/-- Unfolding `totalOf` over a cons cell. -/
theorem totalOf_cons (c : Customer) (cs : List Customer) (cid : Nat) :
    totalOf (c :: cs) cid =
      if c.id = cid then some c.total_purchases else totalOf cs cid := by
  by_cases h : c.id = cid <;> simp [totalOf, List.find?_cons, h]

/-- Pointwise effect of a single stock decrement. -/
theorem stockOf_stockMinus (ps : List Product) (pid : Nat) (q : Int) (pid' : Nat) :
    stockOf (stockMinus ps pid q) pid' =
      if pid' = pid then (stockOf ps pid').map (fun s => s - q) else stockOf ps pid' := by
  induction ps with
  | nil => simp [stockOf, stockMinus]
  | cons p rest ih =>
    have hcons : stockMinus (p :: rest) pid q =
        (if p.id = pid then { p with stock_quantity := p.stock_quantity - q } else p)
          :: stockMinus rest pid q := by
      by_cases h : p.id = pid <;> simp [stockMinus, h]
    rw [hcons]
    by_cases h1 : p.id = pid
    · by_cases h2 : p.id = pid'
      · have h3 : pid' = pid := by omega
        simp [h1, h2, h3, stockOf_cons]
      · have h3 : ¬ (pid' = pid) := by omega
        have h4 : ¬ (pid = pid') := by omega
        simp [h1, h2, h3, h4, stockOf_cons, ih]
    · by_cases h2 : p.id = pid'
      · have h3 : ¬ (pid' = pid) := by omega
        simp [h1, h2, h3, stockOf_cons]
      · simp [h1, h2, stockOf_cons, ih]

/-- Pointwise effect of a single stock increment. -/
theorem stockOf_stockPlus (ps : List Product) (pid : Nat) (q : Int) (pid' : Nat) :
    stockOf (stockPlus ps pid q) pid' =
      if pid' = pid then (stockOf ps pid').map (fun s => s + q) else stockOf ps pid' := by
  rw [stockPlus_eq_stockMinus, stockOf_stockMinus]
  simp [sub_neg_eq_add]

/-- Pointwise effect of a single customer-total increment. -/
theorem totalOf_purchasesPlus (cs : List Customer) (cid : Nat) (amt : Int) (cid' : Nat) :
    totalOf (purchasesPlus cs cid amt) cid' =
      if cid' = cid then (totalOf cs cid').map (fun t => t + amt) else totalOf cs cid' := by
  induction cs with
  | nil => simp [totalOf, purchasesPlus]
  | cons c rest ih =>
    have hcons : purchasesPlus (c :: rest) cid amt =
        (if c.id = cid then { c with total_purchases := c.total_purchases + amt } else c)
          :: purchasesPlus rest cid amt := by
      by_cases h : c.id = cid <;> simp [purchasesPlus, h]
    rw [hcons]
    by_cases h1 : c.id = cid
    · by_cases h2 : c.id = cid'
      · have h3 : cid' = cid := by omega
        simp [h1, h2, h3, totalOf_cons]
      · have h3 : ¬ (cid' = cid) := by omega
        have h4 : ¬ (cid = cid') := by omega
        simp [h1, h2, h3, h4, totalOf_cons, ih]
    · by_cases h2 : c.id = cid'
      · have h3 : ¬ (cid' = cid) := by omega
        simp [h1, h2, h3, totalOf_cons]
      · simp [h1, h2, totalOf_cons, ih]

/-- Pointwise effect of a single customer-total decrement. -/
theorem totalOf_purchasesMinus (cs : List Customer) (cid : Nat) (amt : Int) (cid' : Nat) :
    totalOf (purchasesMinus cs cid amt) cid' =
      if cid' = cid then (totalOf cs cid').map (fun t => t - amt) else totalOf cs cid' := by
  rw [purchasesMinus_eq_purchasesPlus, totalOf_purchasesPlus]
  simp [sub_eq_add_neg]

/-- Products after the create-sale item loop, as a fold of decrements. -/
def stockMinusAll (ps : List Product) (items : List RawItem) : List Product :=
  items.foldl (fun acc it => stockMinus acc (jsId it.product_id) (jsNum it.quantity)) ps

/-- Products after the delete-sale item loop, as a fold of increments. -/
def stockPlusAll (ps : List Product) (items : List SaleItem) : List Product :=
  items.foldl (fun acc si => stockPlus acc si.product_id si.quantity) ps

/-- Pointwise effect of the create-sale loop on stock quantities. -/
theorem stockOf_stockMinusAll (items : List RawItem) (ps : List Product) (pid : Nat) :
    stockOf (stockMinusAll ps items) pid =
      (stockOf ps pid).map (fun s => s - sumQtyRaw items pid) := by
  induction items generalizing ps with
  | nil => cases h : stockOf ps pid <;> simp [stockMinusAll, sumQtyRaw, h]
  | cons it rest ih =>
    have hstep : stockMinusAll ps (it :: rest) =
        stockMinusAll (stockMinus ps (jsId it.product_id) (jsNum it.quantity)) rest := rfl
    rw [hstep, ih, stockOf_stockMinus]
    by_cases h : pid = jsId it.product_id
    · cases hs : stockOf ps pid <;> (simp [h, hs, sumQtyRaw]; try omega)
    · have : ¬ (jsId it.product_id = pid) := fun hc => h hc.symm
      cases hs : stockOf ps pid <;> simp [h, this, hs, sumQtyRaw]

/-- Pointwise effect of the delete-sale loop on stock quantities. -/
theorem stockOf_stockPlusAll (items : List SaleItem) (ps : List Product) (pid : Nat) :
    stockOf (stockPlusAll ps items) pid =
      (stockOf ps pid).map (fun s => s + sumQtySI items pid) := by
  induction items generalizing ps with
  | nil => cases h : stockOf ps pid <;> simp [stockPlusAll, sumQtySI, h]
  | cons si rest ih =>
    have hstep : stockPlusAll ps (si :: rest) =
        stockPlusAll (stockPlus ps si.product_id si.quantity) rest := rfl
    rw [hstep, ih, stockOf_stockPlus]
    by_cases h : pid = si.product_id
    · cases hs : stockOf ps pid <;> (simp [h, hs, sumQtySI]; try omega)
    · have : ¬ (si.product_id = pid) := fun hc => h hc.symm
      cases hs : stockOf ps pid <;> simp [h, this, hs, sumQtySI]

/-- The sale-line rows written by create-sale carry the request quantities. -/
theorem sumQtySI_map_mkSaleItem (items : List RawItem) (sid : Nat) (pid : Nat) :
    sumQtySI (items.map (mkSaleItem sid)) pid = sumQtyRaw items pid := by
  induction items with
  | nil => rfl
  | cons it rest ih => simp [sumQtySI, sumQtyRaw, mkSaleItem, ih]

/-- The create-sale item loop, written as one update per table. -/
theorem createLoop_eq (sid uid : Nat) (items : List RawItem) (db : DB) :
    items.foldl (createSaleStep sid uid) db =
      { db with
        products := stockMinusAll db.products items
        sale_items := db.sale_items ++ items.map (mkSaleItem sid)
        stock_movements := db.stock_movements ++ items.map (mkOutMovement sid uid) } := by
  induction items generalizing db with
  | nil => simp [stockMinusAll]
  | cons it rest ih =>
    rw [List.foldl_cons, ih]
    simp [createSaleStep, stockMinusAll, List.append_assoc]

/-- The delete-sale item loop, written as one update per table. -/
theorem deleteLoop_eq (uid : Nat) (items : List SaleItem) (db : DB) :
    items.foldl (deleteSaleStep uid) db =
      { db with
        products := stockPlusAll db.products items
        stock_movements := db.stock_movements ++ items.map (mkInMovement uid) } := by
  induction items generalizing db with
  | nil => simp [stockPlusAll]
  | cons si rest ih =>
    rw [List.foldl_cons, ih]
    simp [deleteSaleStep, stockPlusAll, List.append_assoc]

/-- A freshly inserted sale wins the lookup by its id when no pre-existing
sale carries that id (the serial primary key guarantees this in the source). -/
theorem find_sale_append (ss : List Sale) (sale : Sale)
    (h : ∀ s ∈ ss, s.id ≠ sale.id) :
    (ss ++ [sale]).find? (fun s => s.id == sale.id) = some sale := by
  induction ss with
  | nil => simp
  | cons a rest ih =>
    have ha : a.id ≠ sale.id := h a (List.mem_cons_self a rest)
    have : (rest ++ [sale]).find? (fun s => s.id == sale.id) = some sale :=
      ih (fun s hs => h s (List.mem_cons_of_mem a hs))
    simpa [List.cons_append, List.find?_cons, ha] using this

/-- Selecting the line items of a freshly inserted sale returns exactly the
rows the create loop appended, when no pre-existing row carries its id. -/
theorem filter_saleItems_append (old : List SaleItem) (sid : Nat) (items : List RawItem)
    (h : ∀ si ∈ old, si.sale_id ≠ sid) :
    (old ++ items.map (mkSaleItem sid)).filter (fun si => si.sale_id == sid)
      = items.map (mkSaleItem sid) := by
  rw [List.filter_append]
  have h1 : old.filter (fun si => si.sale_id == sid) = [] := by
    rw [List.filter_eq_nil_iff]
    intro si hsi
    simpa using h si hsi
  have h2 : (items.map (mkSaleItem sid)).filter (fun si => si.sale_id == sid)
      = items.map (mkSaleItem sid) := by
    rw [List.filter_eq_self]
    intro si hsi
    rcases List.mem_map.mp hsi with ⟨it, _, rfl⟩
    simp [mkSaleItem]
  rw [h1, h2, List.nil_append]

/-- The persisted sale record, as `handleCreateSale` assembles it on success. -/
def saleOf (db : DB) (u : User) (req : CreateSaleRequest) (gen : String) : Sale :=
  { id := db.nextSaleId
    sale_number := gen
    customer_id := storedCustomerId req.customer_id
    sales_rep_id := u.id
    subtotal := computeSubtotal req.items
    discount_amount := req.discount_amount
    tax_amount := req.tax_amount
    total_amount := computeSubtotal req.items - req.discount_amount + req.tax_amount
    commission_amount := roundHalfAwayDiv100
      ((computeSubtotal req.items - req.discount_amount + req.tax_amount)
        * (if u.role = Role.sales_rep then 5 else 0))
    commission_rate := if u.role = Role.sales_rep then 5 else 0 }

/-- The database state `handleCreateSale` commits on success. -/
def createOkDB (db : DB) (u : User) (req : CreateSaleRequest) (gen : String) : DB :=
  let sale := saleOf db u req gen
  let db2 := req.items.foldl (createSaleStep sale.id u.id)
    { db with sales := db.sales ++ [sale], nextSaleId := db.nextSaleId + 1 }
  if truthyNat req.customer_id then
    { db2 with customers := purchasesPlus db2.customers (jsId req.customer_id) sale.total_amount }
  else db2

/-- The success preconditions of `handleCreateSale`: a non-empty validated
item list, a fresh sale number and no foreign-key violation. -/
def createOkCond (db : DB) (req : CreateSaleRequest) (gen : String) : Prop :=
  req.items.isEmpty = false ∧
  req.items.all itemValid = true ∧
  db.sales.any (fun s => s.sale_number == gen) = false ∧
  fkViolationCreate db req = false

/-- The success preconditions are decidable, so concrete witnesses can be
checked by evaluation. -/
instance decCreateOkCond (db : DB) (req : CreateSaleRequest) (gen : String) :
    Decidable (createOkCond db req gen) := by
  unfold createOkCond
  infer_instance

/-- Under the success preconditions, `handleCreateSale` returns 201 with the
assembled sale and commits `createOkDB`. -/
theorem createSale_ok (db : DB) (u : User) (req : CreateSaleRequest) (gen : String)
    (h : createOkCond db req gen) :
    handleCreateSale db u req gen =
      (CreateResult.ok (saleOf db u req gen), createOkDB db u req gen) := by
  obtain ⟨h1, h2, h3, h4⟩ := h
  unfold handleCreateSale createOkDB saleOf
  rw [h1, h2, h3, h4]
  rfl

/-- The catch handler never answers 201. -/
theorem catchResultC_ne_ok (msg : String) (s : Sale) :
    catchResultC msg ≠ CreateResult.ok s := by
  unfold catchResultC
  split <;> simp

/-- Inversion: any 201 answer of `handleCreateSale` arose from the success
preconditions, returns exactly the assembled sale and commits `createOkDB`. -/
theorem createSale_ok_inv (db : DB) (u : User) (req : CreateSaleRequest) (gen : String)
    (sale : Sale) (db' : DB)
    (h : handleCreateSale db u req gen = (CreateResult.ok sale, db')) :
    createOkCond db req gen ∧ sale = saleOf db u req gen ∧ db' = createOkDB db u req gen := by
  cases h1 : req.items.isEmpty with
  | true =>
    simp only [handleCreateSale, h1] at h
    simp at h
  | false =>
    cases h2 : req.items.all itemValid with
    | false =>
      simp only [handleCreateSale] at h
      simp [h1, h2] at h
      exact absurd h.1 (catchResultC_ne_ok _ _)
    | true =>
      cases h3 : db.sales.any (fun s => s.sale_number == gen) with
      | true =>
        simp only [handleCreateSale] at h
        simp [h1, h2, h3] at h
        exact absurd h.1 (catchResultC_ne_ok _ _)
      | false =>
        cases h4 : fkViolationCreate db req with
        | true =>
          simp only [handleCreateSale] at h
          simp [h1, h2, h3, h4] at h
          exact absurd h.1 (catchResultC_ne_ok _ _)
        | false =>
          have hok := createSale_ok db u req gen ⟨h1, h2, h3, h4⟩
          rw [hok] at h
          injection h with hA hB
          injection hA with hA
          exact ⟨⟨h1, h2, h3, h4⟩, hA.symm, hB.symm⟩

/-- Products of the committed create state. -/
theorem createOkDB_products (db : DB) (u : User) (req : CreateSaleRequest) (gen : String) :
    (createOkDB db u req gen).products = stockMinusAll db.products req.items := by
  simp only [createOkDB, createLoop_eq]
  split <;> rfl

/-- Customers of the committed create state. -/
theorem createOkDB_customers (db : DB) (u : User) (req : CreateSaleRequest) (gen : String) :
    (createOkDB db u req gen).customers =
      if truthyNat req.customer_id then
        purchasesPlus db.customers (jsId req.customer_id) (saleOf db u req gen).total_amount
      else db.customers := by
  simp only [createOkDB, createLoop_eq]
  split <;> rfl

/-- Stock movements of the committed create state. -/
theorem createOkDB_movements (db : DB) (u : User) (req : CreateSaleRequest) (gen : String) :
    (createOkDB db u req gen).stock_movements =
      db.stock_movements ++ req.items.map (mkOutMovement db.nextSaleId u.id) := by
  simp only [createOkDB, createLoop_eq]
  split <;> rfl

/-- Sale-line rows of the committed create state. -/
theorem createOkDB_sale_items (db : DB) (u : User) (req : CreateSaleRequest) (gen : String) :
    (createOkDB db u req gen).sale_items =
      db.sale_items ++ req.items.map (mkSaleItem db.nextSaleId) := by
  simp only [createOkDB, createLoop_eq]
  split <;> rfl

/-- Sales of the committed create state. -/
theorem createOkDB_sales (db : DB) (u : User) (req : CreateSaleRequest) (gen : String) :
    (createOkDB db u req gen).sales = db.sales ++ [saleOf db u req gen] := by
  simp only [createOkDB, createLoop_eq]
  split <;> rfl

/-- The database state `handleDeleteSale` commits once authorization passed
and the sale was found. -/
def deleteOkDB (db : DB) (u : User) (id : Nat) (sale : Sale) : DB :=
  let items := db.sale_items.filter (fun si => si.sale_id == id)
  let db1 := items.foldl (deleteSaleStep u.id) db
  let db2 :=
    if truthyNat sale.customer_id then
      { db1 with customers :=
          purchasesMinus db1.customers (jsId sale.customer_id) sale.total_amount }
    else db1
  { db2 with
    sales := db2.sales.filter (fun s => s.id != id)
    sale_items := db2.sale_items.filter (fun si => si.sale_id != id) }

/-- For an administrator and an existing sale the deletion handler answers
200 and commits `deleteOkDB`. -/
theorem deleteSale_found (db : DB) (u : User) (id : Nat) (sale : Sale)
    (hrole : u.role = Role.admin)
    (hfind : db.sales.find? (fun s => s.id == id) = some sale) :
    handleDeleteSale db u (some id) =
      (ApiResult.ok "Sale deleted successfully", deleteOkDB db u id sale) := by
  simp only [handleDeleteSale, deleteOkDB, hrole, hfind, ne_eq, not_true_eq_false,
    Bool.false_eq_true, if_false]

/-- Products of the committed delete state. -/
theorem deleteOkDB_products (db : DB) (u : User) (id : Nat) (sale : Sale) :
    (deleteOkDB db u id sale).products =
      stockPlusAll db.products (db.sale_items.filter (fun si => si.sale_id == id)) := by
  simp only [deleteOkDB, deleteLoop_eq]
  split <;> rfl

/-- Customers of the committed delete state. -/
theorem deleteOkDB_customers (db : DB) (u : User) (id : Nat) (sale : Sale) :
    (deleteOkDB db u id sale).customers =
      if truthyNat sale.customer_id then
        purchasesMinus db.customers (jsId sale.customer_id) sale.total_amount
      else db.customers := by
  simp only [deleteOkDB, deleteLoop_eq]
  split <;> rfl

/-- Stock movements of the committed delete state. -/
theorem deleteOkDB_movements (db : DB) (u : User) (id : Nat) (sale : Sale) :
    (deleteOkDB db u id sale).stock_movements =
      db.stock_movements ++
        (db.sale_items.filter (fun si => si.sale_id == id)).map (mkInMovement u.id) := by
  simp only [deleteOkDB, deleteLoop_eq]
  split <;> rfl

/-- The stored commission is within half a cent of the exact commission:
the `DECIMAL(10,2)` coercion is a rounding, not an arbitrary change. -/
theorem roundHalfAwayDiv100_close (n : Int) :
    |((roundHalfAwayDiv100 n : Int) : ℚ) - (n : ℚ) / 100| ≤ 1 / 2 := by
  unfold roundHalfAwayDiv100
  by_cases h : 0 ≤ n
  · rw [if_pos h, abs_le]
    have h1 : (-50 : ℤ) ≤ 100 * (((n.toNat + 50) / 100 : ℕ) : ℤ) - n := by omega
    have h2 : 100 * (((n.toNat + 50) / 100 : ℕ) : ℤ) - n ≤ 50 := by omega
    have h1q : (-50 : ℚ) ≤ 100 * ((((n.toNat + 50) / 100 : ℕ) : ℤ) : ℚ) - (n : ℚ) := by
      exact_mod_cast h1
    have h2q : 100 * ((((n.toNat + 50) / 100 : ℕ) : ℤ) : ℚ) - (n : ℚ) ≤ 50 := by
      exact_mod_cast h2
    constructor <;> linarith
  · rw [if_neg h, Int.cast_neg, abs_le]
    have h1 : (-50 : ℤ) ≤ -(100 * ((((-n).toNat + 50) / 100 : ℕ) : ℤ)) - n := by omega
    have h2 : -(100 * ((((-n).toNat + 50) / 100 : ℕ) : ℤ)) - n ≤ 50 := by omega
    have h1q : (-50 : ℚ) ≤ -(100 * (((((-n).toNat + 50) / 100 : ℕ) : ℤ) : ℚ)) - (n : ℚ) := by
      exact_mod_cast h1
    have h2q : -(100 * (((((-n).toNat + 50) / 100 : ℕ) : ℤ) : ℚ)) - (n : ℚ) ≤ 50 := by
      exact_mod_cast h2
    constructor <;> linarith

/-- An integer within half a unit of a value is a nearest integer to it. -/
theorem int_nearest_of_close (c z : Int) (q : ℚ) (h : |(c : ℚ) - q| ≤ 1 / 2) :
    |(c : ℚ) - q| ≤ |(z : ℚ) - q| := by
  by_cases hz : z = c
  · rw [hz]
  · have h0 : (1 : ℤ) ≤ |z - c| := Int.one_le_abs (sub_ne_zero.mpr hz)
    have h0q : (1 : ℚ) ≤ |(z : ℚ) - (c : ℚ)| := by exact_mod_cast h0
    have htri : |(z : ℚ) - (c : ℚ)| ≤ |(z : ℚ) - q| + |q - (c : ℚ)| :=
      abs_sub_le (z : ℚ) q (c : ℚ)
    have hcomm : |q - (c : ℚ)| = |(c : ℚ) - q| := abs_sub_comm _ _
    linarith

/-- Storing `customer_id || null` preserves JavaScript truthiness. -/
theorem truthyNat_storedCustomerId (o : Option Nat) :
    truthyNat (storedCustomerId o) = truthyNat o := by
  unfold storedCustomerId
  split <;> simp_all [truthyNat]

/-- For a truthy reference the stored customer id is the requested one. -/
theorem jsId_storedCustomerId (o : Option Nat) (h : truthyNat o = true) :
    jsId (storedCustomerId o) = jsId o := by
  unfold storedCustomerId
  rw [h]
  rfl

/-- A request containing a line item that fails the field validation makes
the transaction throw; the catch handler answers 500 `Server error` (the
thrown message contains none of the 401 substrings) and the rollback leaves
the database unchanged. -/
theorem createSale_invalidItem (db : DB) (u : User) (req : CreateSaleRequest) (gen : String)
    (it : RawItem) (hmem : it ∈ req.items) (hval : itemValid it = false) :
    handleCreateSale db u req gen = (CreateResult.err 500 "Server error", db) := by
  have hne : req.items.isEmpty = false := by
    cases hq : req.items with
    | nil => rw [hq] at hmem; exact absurd hmem (List.not_mem_nil it)
    | cons a l => rfl
  have hall : req.items.all itemValid = false := by
    cases hcase : req.items.all itemValid
    · rfl
    · exact absurd (List.all_eq_true.mp hcase it hmem) (by simp [hval])
  have hcatch : catchResultC itemFieldsMsg = CreateResult.err 500 "Server error" := by decide
  simp only [handleCreateSale, hne, hall, Bool.false_eq_true, if_false, if_true, hcatch]

/-- The sale-number collision path: the unique index on `sales.sale_number`
rejects the insert, the transaction rolls back, and the Postgres error
message reaches the catch handler as a 500. -/
theorem createSale_collision (db : DB) (u : User) (req : CreateSaleRequest) (gen : String)
    (hne : req.items.isEmpty = false)
    (hval : req.items.all itemValid = true)
    (hdup : db.sales.any (fun s => s.sale_number == gen) = true) :
    handleCreateSale db u req gen = (CreateResult.err 500 "Server error", db) := by
  have hcatch : catchResultC pgDuplicateKeyMsg = CreateResult.err 500 "Server error" := by
    decide
  simp only [handleCreateSale, hne, hval, hdup, Bool.false_eq_true, Bool.true_eq_false,
    if_false, if_true, hcatch]

/-- Sample catalog, customer and identities used by the concrete witnesses
(the cart of spec §8: 2 × 10.00 + 1 × 5.00, discount 2.00, tax 1.00). -/
def exProductA : Product := { id := 1, stock_quantity := 10 }

/-- Second sample product. -/
def exProductB : Product := { id := 2, stock_quantity := 5 }

/-- Sample sales-representative identity. -/
def exRep : User := { id := 7, role := Role.sales_rep }

/-- Sample administrator identity. -/
def exAdmin : User := { id := 1, role := Role.admin }

/-- Sample customer with no purchase history. -/
def exCustomer : Customer := { id := 3, total_purchases := 0 }

/-- Sample initial database state. -/
def exDB : DB :=
  { products := [exProductA, exProductB]
    customers := [exCustomer]
    sales := []
    sale_items := []
    stock_movements := []
    nextSaleId := 1 }

/-- Sample create-sale request (amounts in cents). -/
def exReq : CreateSaleRequest :=
  { customer_id := some 3
    items := [{ product_id := some 1, quantity := some 2, unit_price := some 1000 },
              { product_id := some 2, quantity := some 1, unit_price := some 500 }]
    discount_amount := 200
    tax_amount := 100 }

/-- The sale record the sample request persists: subtotal 25.00,
total 24.00, 5% commission 1.20. -/
def exSale : Sale :=
  { id := 1
    sale_number := "SALE-000001001"
    customer_id := some 3
    sales_rep_id := 7
    subtotal := 2500
    discount_amount := 200
    tax_amount := 100
    total_amount := 2400
    commission_amount := 120
    commission_rate := 5 }

/-- C1: for every sale persisted by a successful create-sale request, the
stored subtotal is the sum over the lines of quantity × unit price, the
stored total is subtotal − discount + tax, the stored commission rate is 5
for a sales-representative actor and 0 otherwise, and the stored commission
amount is total × rate / 100 at currency precision (within half a cent,
the rounding the `DECIMAL(10,2)` column applies). -/
theorem C1_create_sale_totals (db : DB) (u : User) (req : CreateSaleRequest) (gen : String)
    (sale : Sale) (db' : DB)
    (h : handleCreateSale db u req gen = (CreateResult.ok sale, db')) :
    sale.subtotal = (req.items.map (fun it => jsNum it.quantity * jsNum it.unit_price)).sum ∧
    sale.total_amount = sale.subtotal - sale.discount_amount + sale.tax_amount ∧
    sale.commission_rate = (if u.role = Role.sales_rep then 5 else 0) ∧
    |((sale.commission_amount : ℤ) : ℚ)
        - ((sale.total_amount * sale.commission_rate : ℤ) : ℚ) / 100| ≤ 1 / 2 := by
  obtain ⟨-, hs, -⟩ := createSale_ok_inv db u req gen sale db' h
  subst hs
  refine ⟨rfl, rfl, rfl, ?_⟩
  exact roundHalfAwayDiv100_close _

/-- Concrete run of `C1_create_sale_totals` on the spec §8 cart. -/
theorem C1_witness :
    handleCreateSale exDB exRep exReq "SALE-000001001"
        = (CreateResult.ok exSale, (handleCreateSale exDB exRep exReq "SALE-000001001").2) ∧
    (exSale.subtotal = (exReq.items.map (fun it => jsNum it.quantity * jsNum it.unit_price)).sum ∧
     exSale.total_amount = exSale.subtotal - exSale.discount_amount + exSale.tax_amount ∧
     exSale.commission_rate = (if exRep.role = Role.sales_rep then 5 else 0) ∧
     |((exSale.commission_amount : ℤ) : ℚ)
         - ((exSale.total_amount * exSale.commission_rate : ℤ) : ℚ) / 100| ≤ 1 / 2) :=
  ⟨by decide, C1_create_sale_totals exDB exRep exReq "SALE-000001001" exSale
      (handleCreateSale exDB exRep exReq "SALE-000001001").2 (by decide)⟩

/-- C4: the commission amount a successful create-sale stores is a whole
number of cents that is nearest (among all whole-cent values) to the exact
commission total × rate / 100 — the `DECIMAL(10,2)` column rounds it to the
nearest cent. -/
theorem C4_commission_rounded (db : DB) (u : User) (req : CreateSaleRequest) (gen : String)
    (sale : Sale) (db' : DB)
    (h : handleCreateSale db u req gen = (CreateResult.ok sale, db')) :
    ∀ z : Int,
      |((sale.commission_amount : ℤ) : ℚ)
          - ((sale.total_amount * sale.commission_rate : ℤ) : ℚ) / 100|
        ≤ |((z : ℤ) : ℚ) - ((sale.total_amount * sale.commission_rate : ℤ) : ℚ) / 100| := by
  obtain ⟨-, hs, -⟩ := createSale_ok_inv db u req gen sale db' h
  subst hs
  intro z
  exact int_nearest_of_close _ z _ (roundHalfAwayDiv100_close _)

/-- Concrete run of `C4_commission_rounded` on the spec §8 cart. -/
theorem C4_witness :
    handleCreateSale exDB exRep exReq "SALE-000001001"
        = (CreateResult.ok exSale, (handleCreateSale exDB exRep exReq "SALE-000001001").2) ∧
    (∀ z : Int,
      |((exSale.commission_amount : ℤ) : ℚ)
          - ((exSale.total_amount * exSale.commission_rate : ℤ) : ℚ) / 100|
        ≤ |((z : ℤ) : ℚ) - ((exSale.total_amount * exSale.commission_rate : ℤ) : ℚ) / 100|) :=
  ⟨by decide, C4_commission_rounded exDB exRep exReq "SALE-000001001" exSale
      (handleCreateSale exDB exRep exReq "SALE-000001001").2 (by decide)⟩

/-- C3: a successful create-sale with N line items appends exactly N
stock-movement rows, all direction `out` with cause `sale`; every product's
stock decreases by exactly the total quantity the lines order for it; with a
truthy customer reference that customer's lifetime total rises by exactly the
sale total (all other customers unchanged), and a walk-in sale leaves the
customers table untouched. -/
theorem C3_create_sale_ledger (db : DB) (u : User) (req : CreateSaleRequest) (gen : String)
    (sale : Sale) (db' : DB)
    (h : handleCreateSale db u req gen = (CreateResult.ok sale, db')) :
    db'.stock_movements = db.stock_movements ++ req.items.map (mkOutMovement sale.id u.id) ∧
    (req.items.map (mkOutMovement sale.id u.id)).length = req.items.length ∧
    (∀ m ∈ req.items.map (mkOutMovement sale.id u.id),
        m.movement_type = MovementType.stockOut ∧ m.reference_type = "sale") ∧
    (∀ pid, stockOf db'.products pid
        = (stockOf db.products pid).map (fun s => s - sumQtyRaw req.items pid)) ∧
    (truthyNat req.customer_id = true →
      ∀ cid, totalOf db'.customers cid =
        if cid = jsId req.customer_id
        then (totalOf db.customers cid).map (fun t => t + sale.total_amount)
        else totalOf db.customers cid) ∧
    (truthyNat req.customer_id = false → db'.customers = db.customers) := by
  obtain ⟨-, hs, hdb⟩ := createSale_ok_inv db u req gen sale db' h
  subst hs
  subst hdb
  refine ⟨?_, List.length_map _ _, ?_, ?_, ?_, ?_⟩
  · rw [createOkDB_movements]
    rfl
  · intro m hm
    rcases List.mem_map.mp hm with ⟨it, -, rfl⟩
    exact ⟨rfl, rfl⟩
  · intro pid
    rw [createOkDB_products]
    exact stockOf_stockMinusAll req.items db.products pid
  · intro htr cid
    rw [createOkDB_customers, if_pos htr, totalOf_purchasesPlus]
  · intro hfa
    rw [createOkDB_customers, if_neg (by simp [hfa])]

/-- Concrete run of `C3_create_sale_ledger` on the spec §8 cart. -/
theorem C3_witness :
    handleCreateSale exDB exRep exReq "SALE-000001001"
        = (CreateResult.ok exSale, (handleCreateSale exDB exRep exReq "SALE-000001001").2) ∧
    ((handleCreateSale exDB exRep exReq "SALE-000001001").2.stock_movements
        = exDB.stock_movements ++ exReq.items.map (mkOutMovement exSale.id exRep.id) ∧
     (exReq.items.map (mkOutMovement exSale.id exRep.id)).length = exReq.items.length ∧
     (∀ m ∈ exReq.items.map (mkOutMovement exSale.id exRep.id),
        m.movement_type = MovementType.stockOut ∧ m.reference_type = "sale") ∧
     (∀ pid, stockOf (handleCreateSale exDB exRep exReq "SALE-000001001").2.products pid
        = (stockOf exDB.products pid).map (fun s => s - sumQtyRaw exReq.items pid)) ∧
     (truthyNat exReq.customer_id = true →
       ∀ cid, totalOf (handleCreateSale exDB exRep exReq "SALE-000001001").2.customers cid =
         if cid = jsId exReq.customer_id
         then (totalOf exDB.customers cid).map (fun t => t + exSale.total_amount)
         else totalOf exDB.customers cid) ∧
     (truthyNat exReq.customer_id = false →
       (handleCreateSale exDB exRep exReq "SALE-000001001").2.customers = exDB.customers)) :=
  ⟨by decide, C3_create_sale_ledger exDB exRep exReq "SALE-000001001" exSale
      (handleCreateSale exDB exRep exReq "SALE-000001001").2 (by decide)⟩

/-- C10: the per-line validation tests JavaScript truthiness, so a line whose
`quantity` or `unit_price` is 0 is rejected exactly like a missing field:
the request fails (500 after rollback) and nothing is persisted — a
zero-priced line can never be sold. -/
theorem C10_zero_fields_rejected (db : DB) (u : User) (req : CreateSaleRequest) (gen : String)
    (it : RawItem) (hmem : it ∈ req.items)
    (hz : it.quantity = some 0 ∨ it.unit_price = some 0) :
    handleCreateSale db u req gen = (CreateResult.err 500 "Server error", db) := by
  have hval : itemValid it = false := by
    rcases hz with hq | hp
    · simp [itemValid, hq, truthyInt]
    · simp [itemValid, hp, truthyInt]
  exact createSale_invalidItem db u req gen it hmem hval

/-- Concrete run of `C10_zero_fields_rejected`: a free (0-price) line item. -/
theorem C10_witness :
    ({ product_id := some 1, quantity := some 2, unit_price := some 0 } : RawItem)
        ∈ ({ customer_id := none,
             items := [{ product_id := some 1, quantity := some 2, unit_price := some 0 }],
             discount_amount := 0, tax_amount := 0 } : CreateSaleRequest).items ∧
    handleCreateSale exDB exRep
        { customer_id := none,
          items := [{ product_id := some 1, quantity := some 2, unit_price := some 0 }],
          discount_amount := 0, tax_amount := 0 } "SALE-000001002"
      = (CreateResult.err 500 "Server error", exDB) :=
  ⟨by decide,
   C10_zero_fields_rejected exDB exRep
      { customer_id := none,
        items := [{ product_id := some 1, quantity := some 2, unit_price := some 0 }],
        discount_amount := 0, tax_amount := 0 } "SALE-000001002"
      { product_id := some 1, quantity := some 2, unit_price := some 0 }
      (by decide) (Or.inr rfl)⟩

/-- A request whose only line is missing its `unit_price`. -/
def badReq : CreateSaleRequest :=
  { customer_id := none
    items := [{ product_id := some 1, quantity := some 1, unit_price := none }]
    discount_amount := 0
    tax_amount := 0 }

/-- C5 counterexample: a line item missing `unit_price` makes the request
fail with HTTP 500 `Server error`, not the claimed 400 — the validation
error is thrown inside the transaction and the module-level catch handler
does not recognise it (its message contains none of `token` / `Invalid` /
`inactive`). -/
theorem C5_counterexample :
    (handleCreateSale exDB exRep badReq "SALE-000001002").1.status = 500 ∧
    (handleCreateSale exDB exRep badReq "SALE-000001002").1.status ≠ 400 ∧
    (handleCreateSale exDB exRep badReq "SALE-000001002").1
        = CreateResult.err 500 "Server error" ∧
    (handleCreateSale exDB exRep badReq "SALE-000001002").2 = exDB := by decide

/-- C5 (amended): an empty item list is rejected at the boundary with 400
`Sale items are required`; a request containing a line item that fails the
field validation (missing or zero `product_id` / `quantity` / `unit_price`)
aborts the transaction and surfaces as 500 `Server error`; in both cases the
rollback leaves the database completely unchanged — no partial state. -/
theorem C5_invalid_input_no_partial_state (db : DB) (u : User)
    (req : CreateSaleRequest) (gen : String) :
    (req.items.isEmpty = true →
      handleCreateSale db u req gen = (CreateResult.err 400 "Sale items are required", db)) ∧
    (∀ it ∈ req.items, itemValid it = false →
      handleCreateSale db u req gen = (CreateResult.err 500 "Server error", db)) := by
  constructor
  · intro hempty
    simp only [handleCreateSale, hempty, if_true]
  · intro it hmem hval
    exact createSale_invalidItem db u req gen it hmem hval

/-- Concrete runs of both branches of `C5_invalid_input_no_partial_state`. -/
theorem C5_witness :
    (handleCreateSale exDB exRep
        { customer_id := none, items := [], discount_amount := 0, tax_amount := 0 }
        "SALE-000001002"
      = (CreateResult.err 400 "Sale items are required", exDB)) ∧
    (handleCreateSale exDB exRep badReq "SALE-000001002"
      = (CreateResult.err 500 "Server error", exDB)) :=
  ⟨(C5_invalid_input_no_partial_state exDB exRep
      { customer_id := none, items := [], discount_amount := 0, tax_amount := 0 }
      "SALE-000001002").1 (by decide),
   (C5_invalid_input_no_partial_state exDB exRep badReq "SALE-000001002").2
      { product_id := some 1, quantity := some 1, unit_price := none }
      (by decide) (by decide)⟩

/-- A database already holding a sale with the very number the generator is
about to return. -/
def dupDB : DB :=
  { products := [exProductA, exProductB]
    customers := [exCustomer]
    sales := [{ id := 5, sale_number := generateSaleNumber 1757001234567 42,
                customer_id := none, sales_rep_id := 1, subtotal := 100,
                discount_amount := 0, tax_amount := 0, total_amount := 100,
                commission_amount := 0, commission_rate := 0 }]
    sale_items := []
    stock_movements := []
    nextSaleId := 6 }

/-- A well-formed single-line request used by the collision scenarios. -/
def goodReq : CreateSaleRequest :=
  { customer_id := none
    items := [{ product_id := some 1, quantity := some 1, unit_price := some 1000 }]
    discount_amount := 0
    tax_amount := 0 }

/-- C6 counterexample: when the generated sale number collides with an
existing sale's number, the request simply fails (500 after rollback, state
unchanged) — no retry with a freshly generated number happens, and no sale
is created. -/
theorem C6_counterexample :
    dupDB.sales.any
        (fun s => s.sale_number == generateSaleNumber 1757001234567 42) = true ∧
    (handleCreateSale dupDB exRep goodReq (generateSaleNumber 1757001234567 42)).1.status
        = 500 ∧
    (handleCreateSale dupDB exRep goodReq (generateSaleNumber 1757001234567 42)).1
        = CreateResult.err 500 "Server error" ∧
    (handleCreateSale dupDB exRep goodReq (generateSaleNumber 1757001234567 42)).2
        = dupDB := by decide

/-- C6 (amended): a sale-number collision is not retried — the unique-index
violation aborts the transaction, the request fails with 500 `Server error`,
and the database is unchanged. -/
theorem C6_collision_not_retried (db : DB) (u : User) (req : CreateSaleRequest) (gen : String)
    (hne : req.items.isEmpty = false)
    (hval : req.items.all itemValid = true)
    (hdup : db.sales.any (fun s => s.sale_number == gen) = true) :
    handleCreateSale db u req gen = (CreateResult.err 500 "Server error", db) :=
  createSale_collision db u req gen hne hval hdup

/-- Concrete run of `C6_collision_not_retried`. -/
theorem C6_witness :
    goodReq.items.isEmpty = false ∧
    goodReq.items.all itemValid = true ∧
    dupDB.sales.any
        (fun s => s.sale_number == generateSaleNumber 1757001234567 42) = true ∧
    handleCreateSale dupDB exRep goodReq (generateSaleNumber 1757001234567 42)
      = (CreateResult.err 500 "Server error", dupDB) :=
  ⟨by decide, by decide, by decide,
   C6_collision_not_retried dupDB exRep goodReq (generateSaleNumber 1757001234567 42)
      (by decide) (by decide) (by decide)⟩

/-- C7: deleting a sale is 403 for any non-administrator (state unchanged),
404 for an administrator when the sale does not exist, and succeeds for an
administrator when it does. -/
theorem C7_delete_sale_authz (db : DB) (u : User) (id : Nat) :
    (u.role ≠ Role.admin →
      handleDeleteSale db u (some id) = (ApiResult.err 403 "Only admins can delete sales", db)) ∧
    (u.role = Role.admin → db.sales.find? (fun s => s.id == id) = none →
      handleDeleteSale db u (some id) = (ApiResult.err 404 "Sale not found", db)) ∧
    (u.role = Role.admin → ∀ sale, db.sales.find? (fun s => s.id == id) = some sale →
      (handleDeleteSale db u (some id)).1 = ApiResult.ok "Sale deleted successfully") := by
  refine ⟨?_, ?_, ?_⟩
  · intro hrole
    simp only [handleDeleteSale]
    rw [if_pos hrole]
  · intro hrole hnone
    simp only [handleDeleteSale, hrole, ne_eq, not_true_eq_false, if_false, hnone]
  · intro hrole sale hfind
    rw [deleteSale_found db u id sale hrole hfind]

/-- The state after the sample sale has been recorded. -/
def delDB : DB := (handleCreateSale exDB exRep exReq "SALE-000001001").2

/-- Concrete runs of all three branches of `C7_delete_sale_authz`. -/
theorem C7_witness :
    (handleDeleteSale delDB exRep (some 1)
        = (ApiResult.err 403 "Only admins can delete sales", delDB)) ∧
    (handleDeleteSale exDB exAdmin (some 1) = (ApiResult.err 404 "Sale not found", exDB)) ∧
    ((handleDeleteSale delDB exAdmin (some 1)).1 = ApiResult.ok "Sale deleted successfully") :=
  ⟨(C7_delete_sale_authz delDB exRep 1).1 (by decide),
   (C7_delete_sale_authz exDB exAdmin 1).2.1 rfl (by decide),
   (C7_delete_sale_authz delDB exAdmin 1).2.2 rfl (saleOf exDB exRep exReq "SALE-000001001")
      (by decide)⟩

/-- C9: create-sale checks no inventory availability — under the success
preconditions (which say nothing about stock levels) the request succeeds
and every product's stock is decremented by the ordered quantity, negative
results included; symmetrically, delete-sale decrements the customer's
lifetime total by the sale total with no floor at zero. -/
theorem C9_no_oversell_no_floor :
    (∀ db u req gen, createOkCond db req gen →
      (handleCreateSale db u req gen).1.status = 201 ∧
      ∀ pid, stockOf (handleCreateSale db u req gen).2.products pid
        = (stockOf db.products pid).map (fun s => s - sumQtyRaw req.items pid)) ∧
    (∀ db u id sale, u.role = Role.admin →
      db.sales.find? (fun s => s.id == id) = some sale →
      (handleDeleteSale db u (some id)).1 = ApiResult.ok "Sale deleted successfully" ∧
      (truthyNat sale.customer_id = true →
        totalOf (handleDeleteSale db u (some id)).2.customers (jsId sale.customer_id)
          = (totalOf db.customers (jsId sale.customer_id)).map
              (fun t => t - sale.total_amount))) := by
  constructor
  · intro db u req gen hcond
    rw [createSale_ok db u req gen hcond]
    refine ⟨rfl, ?_⟩
    intro pid
    show stockOf (createOkDB db u req gen).products pid = _
    rw [createOkDB_products]
    exact stockOf_stockMinusAll req.items db.products pid
  · intro db u id sale hrole hfind
    rw [deleteSale_found db u id sale hrole hfind]
    refine ⟨rfl, ?_⟩
    intro htr
    show totalOf (deleteOkDB db u id sale).customers _ = _
    rw [deleteOkDB_customers, if_pos htr, totalOf_purchasesMinus, if_pos rfl]

/-- A catalog holding a single unit of product 1. -/
def negDB : DB :=
  { products := [{ id := 1, stock_quantity := 1 }]
    customers := [exCustomer]
    sales := []
    sale_items := []
    stock_movements := []
    nextSaleId := 1 }

/-- A request ordering five units of the single-unit product. -/
def negReq : CreateSaleRequest :=
  { customer_id := some 3
    items := [{ product_id := some 1, quantity := some 5, unit_price := some 1000 }]
    discount_amount := 0
    tax_amount := 0 }

/-- An already-recorded 50.00 sale for a customer whose lifetime total is 0. -/
def negSaleLit : Sale :=
  { id := 1
    sale_number := "SALE-000000900"
    customer_id := some 3
    sales_rep_id := 7
    subtotal := 5000
    discount_amount := 0
    tax_amount := 0
    total_amount := 5000
    commission_amount := 250
    commission_rate := 5 }

/-- State in which deleting `negSaleLit` drives customer 3 negative. -/
def negDelDB : DB :=
  { products := [{ id := 1, stock_quantity := 5 }]
    customers := [{ id := 3, total_purchases := 0 }]
    sales := [negSaleLit]
    sale_items := [{ sale_id := 1, product_id := 1, quantity := 5,
                     unit_price := 1000, total_price := 5000 }]
    stock_movements := []
    nextSaleId := 2 }

/-- Concrete runs of `C9_no_oversell_no_floor`: overselling five units of a
single-unit product leaves stock −4, and deleting a 50.00 sale of a
zero-total customer leaves the total at −50.00. -/
theorem C9_witness :
    createOkCond negDB negReq "SALE-000001003" ∧
    ((handleCreateSale negDB exRep negReq "SALE-000001003").1.status = 201 ∧
     ∀ pid, stockOf (handleCreateSale negDB exRep negReq "SALE-000001003").2.products pid
        = (stockOf negDB.products pid).map (fun s => s - sumQtyRaw negReq.items pid)) ∧
    stockOf (handleCreateSale negDB exRep negReq "SALE-000001003").2.products 1
        = some (-4) ∧
    ((handleDeleteSale negDelDB exAdmin (some 1)).1 = ApiResult.ok "Sale deleted successfully" ∧
     (truthyNat negSaleLit.customer_id = true →
       totalOf (handleDeleteSale negDelDB exAdmin (some 1)).2.customers
           (jsId negSaleLit.customer_id)
         = (totalOf negDelDB.customers (jsId negSaleLit.customer_id)).map
             (fun t => t - negSaleLit.total_amount))) ∧
    totalOf (handleDeleteSale negDelDB exAdmin (some 1)).2.customers 3 = some (-5000) :=
  ⟨by decide,
   C9_no_oversell_no_floor.1 negDB exRep negReq "SALE-000001003" (by decide),
   by decide,
   C9_no_oversell_no_floor.2 negDelDB exAdmin 1 negSaleLit rfl (by decide),
   by decide⟩

/-- C8 (amended): deleting a product referenced by a sale line, or a customer
referenced by a sale, fails with the handler's Conflict response (400) and
changes nothing; deleting an unreferenced customer succeeds and removes the
row; deleting a product referenced by no sale line succeeds and removes the
row only when no stock movement references it — otherwise the schema's
foreign key on `stock_movements.product_id` aborts the `DELETE` and the
request fails with 500, the record staying in place. -/
theorem C8_delete_referenced (db : DB) (pid cid : Nat)
    (hp : db.products.any (fun p => p.id == pid) = true)
    (hc : db.customers.any (fun c => c.id == cid) = true) :
    (db.sale_items.any (fun si => si.product_id == pid) = true →
      handleDeleteProduct db (some pid)
        = (ApiResult.err 400 "Cannot delete product that has been used in sales", db)) ∧
    (db.sale_items.any (fun si => si.product_id == pid) = false →
      db.stock_movements.any (fun m => m.product_id == pid) = false →
      handleDeleteProduct db (some pid)
        = (ApiResult.ok "Product deleted successfully",
           { db with products := db.products.filter (fun p => p.id != pid) })) ∧
    (db.sale_items.any (fun si => si.product_id == pid) = false →
      db.stock_movements.any (fun m => m.product_id == pid) = true →
      handleDeleteProduct db (some pid) = (ApiResult.err 500 "Server error", db)) ∧
    (db.sales.any (fun s => s.customer_id == some cid) = true →
      handleDeleteCustomer db (some cid)
        = (ApiResult.err 400 "Cannot delete customer that has sales history", db)) ∧
    (db.sales.any (fun s => s.customer_id == some cid) = false →
      handleDeleteCustomer db (some cid)
        = (ApiResult.ok "Customer deleted successfully",
           { db with customers := db.customers.filter (fun c => c.id != cid) })) := by
  refine ⟨?_, ?_, ?_, ?_, ?_⟩
  · intro href
    simp only [handleDeleteProduct, hp, href, Bool.true_eq_false, if_false, if_true]
  · intro href hmov
    simp only [handleDeleteProduct, hp, href, hmov, Bool.true_eq_false, Bool.false_eq_true,
      if_false, if_true]
  · intro href hmov
    have hcatch : catchResultA pgForeignKeyMsg = ApiResult.err 500 "Server error" := by decide
    simp only [handleDeleteProduct, hp, href, hmov, Bool.true_eq_false, Bool.false_eq_true,
      if_false, if_true, hcatch]
  · intro href
    simp only [handleDeleteCustomer, hc, href, Bool.true_eq_false, if_false, if_true]
  · intro href
    simp only [handleDeleteCustomer, hc, href, Bool.true_eq_false, Bool.false_eq_true,
      if_false, if_true]

/-- State reached by recording the sample sale and then deleting it: the
sale lines are gone (cascade) but four stock movements (two `out`, two `in`)
still reference the products. -/
def c8runDB : DB :=
  (handleDeleteSale (handleCreateSale exDB exRep exReq "SALE-000001001").2
    exAdmin (some 1)).2

/-- C8 counterexample: in `c8runDB` product 1 is referenced by no sale line,
yet deleting it does not succeed — the stock-movement foreign key aborts the
`DELETE`, the request answers 500 and the product row remains. -/
theorem C8_counterexample :
    c8runDB.sale_items.all (fun si => si.product_id != 1) = true ∧
    c8runDB.products.any (fun p => p.id == 1) = true ∧
    (handleDeleteProduct c8runDB (some 1)).1.status = 500 ∧
    (handleDeleteProduct c8runDB (some 1)).1 ≠ ApiResult.ok "Product deleted successfully" ∧
    (handleDeleteProduct c8runDB (some 1)).2.products.any (fun p => p.id == 1) = true := by
  decide

/-- A state with product 1 referenced by a sale line and customer 3
referenced by a sale. -/
def c8witDB : DB :=
  { products := [{ id := 1, stock_quantity := 10 }]
    customers := [{ id := 3, total_purchases := 5000 }]
    sales := [negSaleLit]
    sale_items := [{ sale_id := 1, product_id := 1, quantity := 5,
                     unit_price := 1000, total_price := 5000 }]
    stock_movements := [{ product_id := 1, movement_type := MovementType.stockOut,
                          quantity := 5, reference_type := "sale", reference_id := some 1,
                          created_by := 7 }]
    nextSaleId := 2 }

/-- Concrete run of `C8_delete_referenced` on `c8witDB`. -/
theorem C8_witness :
    c8witDB.products.any (fun p => p.id == 1) = true ∧
    c8witDB.customers.any (fun c => c.id == 3) = true ∧
    ((c8witDB.sale_items.any (fun si => si.product_id == 1) = true →
      handleDeleteProduct c8witDB (some 1)
        = (ApiResult.err 400 "Cannot delete product that has been used in sales", c8witDB)) ∧
     (c8witDB.sale_items.any (fun si => si.product_id == 1) = false →
      c8witDB.stock_movements.any (fun m => m.product_id == 1) = false →
      handleDeleteProduct c8witDB (some 1)
        = (ApiResult.ok "Product deleted successfully",
           { c8witDB with products := c8witDB.products.filter (fun p => p.id != 1) })) ∧
     (c8witDB.sale_items.any (fun si => si.product_id == 1) = false →
      c8witDB.stock_movements.any (fun m => m.product_id == 1) = true →
      handleDeleteProduct c8witDB (some 1) = (ApiResult.err 500 "Server error", c8witDB)) ∧
     (c8witDB.sales.any (fun s => s.customer_id == some 3) = true →
      handleDeleteCustomer c8witDB (some 3)
        = (ApiResult.err 400 "Cannot delete customer that has sales history", c8witDB)) ∧
     (c8witDB.sales.any (fun s => s.customer_id == some 3) = false →
      handleDeleteCustomer c8witDB (some 3)
        = (ApiResult.ok "Customer deleted successfully",
           { c8witDB with customers := c8witDB.customers.filter (fun c => c.id != 3) }))) :=
  ⟨by decide, by decide, C8_delete_referenced c8witDB 1 3 (by decide) (by decide)⟩

/-- C2: recording a sale and then deleting it as an administrator restores
every product's stock quantity and every customer's lifetime total to their
pre-creation values; the deletion appends one compensating `in` /
`sale_delete` movement per sale line while every movement present before the
deletion — the original `out` rows included — is retained.  The freshness
hypotheses state what the serial primary key guarantees: no pre-existing
sale or sale line carries the id about to be assigned. -/
theorem C2_delete_compensates (db : DB) (u adminU : User) (req : CreateSaleRequest)
    (gen : String) (sale : Sale) (db1 : DB)
    (hcreate : handleCreateSale db u req gen = (CreateResult.ok sale, db1))
    (hadmin : adminU.role = Role.admin)
    (hfreshSale : ∀ s ∈ db.sales, s.id ≠ db.nextSaleId)
    (hfreshItems : ∀ si ∈ db.sale_items, si.sale_id ≠ db.nextSaleId) :
    (handleDeleteSale db1 adminU (some sale.id)).1 = ApiResult.ok "Sale deleted successfully" ∧
    (∀ pid, stockOf (handleDeleteSale db1 adminU (some sale.id)).2.products pid
        = stockOf db.products pid) ∧
    (∀ cid, totalOf (handleDeleteSale db1 adminU (some sale.id)).2.customers cid
        = totalOf db.customers cid) ∧
    (handleDeleteSale db1 adminU (some sale.id)).2.stock_movements
      = db1.stock_movements
        ++ (db1.sale_items.filter (fun si => si.sale_id == sale.id)).map
            (mkInMovement adminU.id) ∧
    (∀ m ∈ (db1.sale_items.filter (fun si => si.sale_id == sale.id)).map
          (mkInMovement adminU.id),
        m.movement_type = MovementType.stockIn ∧ m.reference_type = "sale_delete") ∧
    (∀ m ∈ db1.stock_movements,
        m ∈ (handleDeleteSale db1 adminU (some sale.id)).2.stock_movements) := by
  obtain ⟨-, hs, hdb⟩ := createSale_ok_inv db u req gen sale db1 hcreate
  subst hs
  subst hdb
  have hid : (saleOf db u req gen).id = db.nextSaleId := rfl
  simp only [hid]
  have hfind : (createOkDB db u req gen).sales.find? (fun s => s.id == db.nextSaleId)
      = some (saleOf db u req gen) := by
    rw [createOkDB_sales]
    have hfresh2 : ∀ s ∈ db.sales, s.id ≠ (saleOf db u req gen).id := by
      intro s hs2
      rw [hid]
      exact hfreshSale s hs2
    have := find_sale_append db.sales (saleOf db u req gen) hfresh2
    simpa [hid] using this
  have hdel := deleteSale_found (createOkDB db u req gen) adminU db.nextSaleId
      (saleOf db u req gen) hadmin hfind
  have hfst : (handleDeleteSale (createOkDB db u req gen) adminU (some db.nextSaleId)).1
      = ApiResult.ok "Sale deleted successfully" := by rw [hdel]
  have hsnd : (handleDeleteSale (createOkDB db u req gen) adminU (some db.nextSaleId)).2
      = deleteOkDB (createOkDB db u req gen) adminU db.nextSaleId (saleOf db u req gen) := by
    rw [hdel]
  have hitems : (createOkDB db u req gen).sale_items.filter
        (fun si => si.sale_id == db.nextSaleId)
      = req.items.map (mkSaleItem db.nextSaleId) := by
    rw [createOkDB_sale_items]
    exact filter_saleItems_append db.sale_items db.nextSaleId req.items hfreshItems
  refine ⟨hfst, ?_, ?_, ?_, ?_, ?_⟩
  · intro pid
    rw [hsnd, deleteOkDB_products, hitems, createOkDB_products, stockOf_stockPlusAll,
      stockOf_stockMinusAll, sumQtySI_map_mkSaleItem]
    cases stockOf db.products pid <;> simp
  · intro cid
    rw [hsnd, deleteOkDB_customers, createOkDB_customers]
    have hsc : (saleOf db u req gen).customer_id = storedCustomerId req.customer_id := rfl
    rw [hsc, truthyNat_storedCustomerId]
    cases htr : truthyNat req.customer_id with
    | false => simp only [Bool.false_eq_true, if_false]
    | true =>
      simp only [if_true]
      rw [jsId_storedCustomerId _ htr, totalOf_purchasesMinus, totalOf_purchasesPlus]
      by_cases hc : cid = jsId req.customer_id
      · rw [if_pos hc, if_pos hc]
        cases totalOf db.customers cid <;> simp
      · rw [if_neg hc, if_neg hc]
  · rw [hsnd, deleteOkDB_movements]
  · intro m hm
    rcases List.mem_map.mp hm with ⟨si, -, rfl⟩
    exact ⟨rfl, rfl⟩
  · intro m hm
    rw [hsnd, deleteOkDB_movements]
    exact List.mem_append_left _ hm

/-- Concrete run of `C2_delete_compensates` on the spec §8 cart: creating
the 24.00 sale and deleting it returns product stocks to 10 and 5 and the
customer total to 0. -/
theorem C2_witness :
    handleCreateSale exDB exRep exReq "SALE-000001001"
        = (CreateResult.ok exSale, delDB) ∧
    (((handleDeleteSale delDB exAdmin (some exSale.id)).1
        = ApiResult.ok "Sale deleted successfully" ∧
      (∀ pid, stockOf (handleDeleteSale delDB exAdmin (some exSale.id)).2.products pid
          = stockOf exDB.products pid) ∧
      (∀ cid, totalOf (handleDeleteSale delDB exAdmin (some exSale.id)).2.customers cid
          = totalOf exDB.customers cid) ∧
      (handleDeleteSale delDB exAdmin (some exSale.id)).2.stock_movements
        = delDB.stock_movements
          ++ (delDB.sale_items.filter (fun si => si.sale_id == exSale.id)).map
              (mkInMovement exAdmin.id) ∧
      (∀ m ∈ (delDB.sale_items.filter (fun si => si.sale_id == exSale.id)).map
            (mkInMovement exAdmin.id),
          m.movement_type = MovementType.stockIn ∧ m.reference_type = "sale_delete") ∧
      (∀ m ∈ delDB.stock_movements,
          m ∈ (handleDeleteSale delDB exAdmin (some exSale.id)).2.stock_movements))) :=
  ⟨by decide,
   C2_delete_compensates exDB exRep exAdmin exReq "SALE-000001001" exSale delDB
      (by decide) rfl (by decide) (by decide)⟩

/-- Sanity check of the sale-number format: `SALE-` + last six timestamp
digits + three-digit random suffix. -/
theorem generateSaleNumber_format :
    generateSaleNumber 1757001234567 42 = "SALE-234567042" := by decide
